import Mathlib

/-!
# vatis NativeAudio: a shallow embedding of `AudioContext`

The definitions below follow `src/NativeAudio/src/audio_context.cpp` and
`src/NativeAudio/include/audio_context.h`.  The engine is modelled sequentially:
every member function becomes a function from the engine state (and the answers
of the native audio library during the call) to the new state and the result.

* `std::vector<uint8_t>` is a `List Byte`;
* `size_t` arithmetic is arithmetic on `Nat` reduced modulo `2 ^ 64`;
* a `memcpy` that reads outside the source region has no defined result, which
  is `none` in `readBytes`.
-/

namespace Vatis

/-- One `uint8_t`. -/
abbrev Byte := Fin 256

/-- The modulus of `size_t` arithmetic (64-bit build). -/
abbrev SIZE_MOD : Nat := 18446744073709551616

/-- The largest `unsigned int`, which is what `-1` converts to in `api == -1`. -/
abbrev UINT_MAX : Nat := 4294967295

/-- Modelled from the spec: miniaudio's `ma_result` (miniaudio.h is not in the
repository); a call of the native audio subsystem succeeds when it answers
`MA_SUCCESS`. -/
abbrev ma_result := Int

/-- Modelled from the spec: miniaudio's success code. -/
abbrev MA_SUCCESS : ma_result := 0

/-- Modelled from the spec: the part of miniaudio's `ma_device` the engine
depends on: whether the native stream handle is open and whether the stream is
running. A zero-initialised `ma_device = {}` is closed and stopped. -/
structure ma_device where
  initialized : Bool
  started : Bool
deriving DecidableEq, Repr

/-- Modelled from the spec: the part of miniaudio's `ma_context` the engine
depends on: whether the subsystem context is open. -/
structure ma_context where
  initialized : Bool
deriving DecidableEq, Repr

/-- Modelled from the spec: `ma_device_init` answers `result`; on success the
handle is open and stopped, on failure it is left closed. -/
def ma_device_init (result : ma_result) : ma_device :=
  if result = MA_SUCCESS then { initialized := true, started := false }
  else { initialized := false, started := false }

/-- Modelled from the spec: `ma_device_uninit` closes the handle. -/
def ma_device_uninit (_pDevice : ma_device) : ma_device :=
  { initialized := false, started := false }

/-- Modelled from the spec: `ma_device_start` answers `result`; the stream runs
afterwards exactly when the call succeeded. -/
def ma_device_start (pDevice : ma_device) (result : ma_result) : ma_device :=
  if result = MA_SUCCESS then { pDevice with started := true } else pDevice

/-- Modelled from the spec: `ma_device_stop` stops the stream and keeps the
handle open. -/
def ma_device_stop (pDevice : ma_device) : ma_device :=
  { pDevice with started := false }

/-- Modelled from the spec: `ma_context_uninit` closes the subsystem context. -/
def ma_context_uninit (_pContext : ma_context) : ma_context :=
  { initialized := false }

/-- The data members of `class AudioContext` (audio_context.h), the mutex apart. -/
structure AudioContext where
  playbackDeviceName : String
  captureDeviceName : String
  audioApi : Nat
  captureInitialized : Bool
  playbackInitialized : Bool
  bufferPlaybackInitialized : Bool
  context : ma_context
  playbackDevice : ma_device
  captureDevice : ma_device
  bufferPlaybackDevice : ma_device
  playbackPos : Nat
  audioBuffer : List Byte
deriving DecidableEq, Repr

/-- The constant `sampleRateHz` of audio_context.h. -/
def sampleRateHz : Nat := 48000

/-- The constant `frameLengthMs` of audio_context.h. -/
def frameLengthMs : Nat := 20

/-- The constant `frameSizeSamples` of audio_context.h. -/
def frameSizeSamples : Nat := sampleRateHz * frameLengthMs / 1000

/-- The constructor `AudioContext::AudioContext()`: empty names, backend 0, no
stream initialised, the subsystem context opened, cursor 0, empty buffer. -/
def AudioContext.new : AudioContext :=
  { playbackDeviceName := ""
    captureDeviceName := ""
    audioApi := 0
    captureInitialized := false
    playbackInitialized := false
    bufferPlaybackInitialized := false
    context := { initialized := true }
    playbackDevice := { initialized := false, started := false }
    captureDevice := { initialized := false, started := false }
    bufferPlaybackDevice := { initialized := false, started := false }
    playbackPos := 0
    audioBuffer := [] }

/-- A `memcpy` source: the `n` bytes of `mem` from offset `off`, defined only
when the whole span lies inside `mem`. -/
def readBytes (mem : List Byte) (off n : Nat) : Option (List Byte) :=
  if off + n ≤ mem.length then some ((mem.drop off).take n) else none

/-- The callback `AudioContext::PlaybackCallback` (lines 337-369).  `channels` is
`pDevice->playback.channels`; the result is the new engine state and the
bytes written to the start of `pOutput`. -/
def PlaybackCallback (pContext : AudioContext) (channels frameCount : Nat) :
    Option (AudioContext × List Byte) :=
  let byteCount := frameCount * channels * 2 % SIZE_MOD
  let playbackPosCopy := pContext.playbackPos
  let remainingBytesCopy := (pContext.audioBuffer.length + SIZE_MOD - playbackPosCopy) % SIZE_MOD
  let playbackPosCopy :=
    if playbackPosCopy ≥ pContext.audioBuffer.length then 0 else playbackPosCopy
  if byteCount ≤ remainingBytesCopy then
    (readBytes pContext.audioBuffer playbackPosCopy byteCount).map fun copied =>
      ({ pContext with playbackPos := (playbackPosCopy + byteCount) % SIZE_MOD }, copied)
  else
    (readBytes pContext.audioBuffer playbackPosCopy remainingBytesCopy).map fun copied =>
      ({ pContext with playbackPos := 0 },
        copied ++ List.replicate (byteCount - remainingBytesCopy) 0)

/-- The outputs of `n` consecutive `PlaybackCallback` invocations, concatenated,
with no control operation in between. -/
def playbackPeriods (channels frameCount : Nat) :
    Nat → AudioContext → Option (AudioContext × List Byte)
  | 0, s => some (s, [])
  | n + 1, s =>
    match PlaybackCallback s channels frameCount with
    | none => none
    | some (s1, out1) =>
      match playbackPeriods channels frameCount n s1 with
      | none => none
      | some (s2, out2) => some (s2, out1 ++ out2)

/-- The member `std::vector<uint8_t>::resize(n)`: keeps the first `n` bytes and
value-initialises (zeroes) the bytes it adds. -/
def resize (v : List Byte) (n : Nat) : List Byte :=
  v.take n ++ List.replicate (n - v.length) 0

/-- The call `std::memset(mem + off, value, n)` on the bytes of `mem`: the bytes
at offsets `off .. off + n - 1` become `value`, the others are kept. -/
def memset (mem : List Byte) (off : Nat) (value : Byte) (n : Nat) : List Byte :=
  mem.mapIdx fun i b => if off ≤ i ∧ i < off + n then value else b

/-- The call `std::memcpy(dst, src, n)` on the bytes of `dst`: the first `n`
bytes of `dst` become the first `n` bytes of `src`. -/
def memcpy (dst src : List Byte) (n : Nat) : List Byte :=
  src.take n ++ dst.drop n

/-- The static member `AudioContext::AddSilence` (lines 449-454). -/
def AddSilence (buffer : List Byte) (sampleRate durationInSeconds : Nat) : List Byte :=
  let numSamples := sampleRate * durationInSeconds % SIZE_MOD
  let buffer := resize buffer ((buffer.length + numSamples) % SIZE_MOD)
  memset buffer (buffer.length - numSamples) 0 numSamples

/-- Modelled from the spec: the members of miniaudio's `ma_device_id` union that
`GetDeviceId` reads (miniaudio.h is not in the repository), one field per
member: a wide string, numbers, and NUL-terminated character arrays read as
strings. -/
structure ma_device_id where
  wasapi : List Nat
  winmm : Nat
  alsa : String
  pulse : String
  jack : Int
  coreaudio : String
  sndio : String
  audio4 : String
  oss : String
  aaudio : Int
  opensl : Nat
  webaudio : String
  nullbackend : Int
deriving DecidableEq, Repr

/-- Modelled from the spec: miniaudio's `ma_device_info`: the identifier, the
name and the default-device flag of an enumerated device. -/
structure ma_device_info where
  id : ma_device_id
  name : String
  isDefault : Bool
deriving DecidableEq, Repr

/-- What the native audio subsystem answers during one engine operation: the
result and the two device lists of `ma_context_get_devices`, and the results of
`ma_device_init` and `ma_device_start`. -/
structure NativeAnswers where
  getDevicesResult : ma_result
  playbackInfos : List ma_device_info
  captureInfos : List ma_device_info
  deviceInitResult : ma_result
  deviceStartResult : ma_result
deriving DecidableEq, Repr

/-- The member `AudioContext::GetPlaybackDevices` (lines 40-55): the map from
index to device, in index order; empty when the query fails. -/
def GetPlaybackDevices (_api : Nat) (native : NativeAnswers) : List (Nat × ma_device_info) :=
  if native.getDevicesResult = MA_SUCCESS then native.playbackInfos.enum else []

/-- The member `AudioContext::GetCaptureDevices` (lines 57-72). -/
def GetCaptureDevices (_api : Nat) (native : NativeAnswers) : List (Nat × ma_device_info) :=
  if native.getDevicesResult = MA_SUCCESS then native.captureInfos.enum else []

/-- The member `AudioContext::GetDeviceFromName` (lines 371-383): the identifier
of the first enumerated device with that name, `none` for `return false`. -/
def GetDeviceFromName (native : NativeAnswers) (deviceName : String) (isInput : Bool) :
    Option ma_device_id :=
  let devices := if isInput then GetCaptureDevices 0 native else GetPlaybackDevices 0 native
  if !devices.isEmpty then
    (devices.find? fun device => device.2.name == deviceName).map fun device => device.2.id
  else
    none

/-- Modelled from the spec: miniaudio's `ma_backend` enumerators (miniaudio.h is
not in the repository), numbered from 0 in declaration order. -/
def ma_backend_wasapi : Nat := 0
/-- Modelled from the spec: miniaudio's `ma_backend_dsound`. -/
def ma_backend_dsound : Nat := 1
/-- Modelled from the spec: miniaudio's `ma_backend_winmm`. -/
def ma_backend_winmm : Nat := 2
/-- Modelled from the spec: miniaudio's `ma_backend_coreaudio`. -/
def ma_backend_coreaudio : Nat := 3
/-- Modelled from the spec: miniaudio's `ma_backend_sndio`. -/
def ma_backend_sndio : Nat := 4
/-- Modelled from the spec: miniaudio's `ma_backend_audio4`. -/
def ma_backend_audio4 : Nat := 5
/-- Modelled from the spec: miniaudio's `ma_backend_oss`. -/
def ma_backend_oss : Nat := 6
/-- Modelled from the spec: miniaudio's `ma_backend_pulseaudio`. -/
def ma_backend_pulseaudio : Nat := 7
/-- Modelled from the spec: miniaudio's `ma_backend_alsa`. -/
def ma_backend_alsa : Nat := 8
/-- Modelled from the spec: miniaudio's `ma_backend_jack`. -/
def ma_backend_jack : Nat := 9
/-- Modelled from the spec: miniaudio's `ma_backend_aaudio`. -/
def ma_backend_aaudio : Nat := 10
/-- Modelled from the spec: miniaudio's `ma_backend_opensl`. -/
def ma_backend_opensl : Nat := 11
/-- Modelled from the spec: miniaudio's `ma_backend_webaudio`. -/
def ma_backend_webaudio : Nat := 12
/-- Modelled from the spec: miniaudio's `ma_backend_custom`. -/
def ma_backend_custom : Nat := 13
/-- Modelled from the spec: miniaudio's `ma_backend_null`. -/
def ma_backend_null : Nat := 14
/-- Modelled from the spec: miniaudio's `MA_BACKEND_COUNT`, one past
`ma_backend_null`. -/
def MA_BACKEND_COUNT : Nat := ma_backend_null + 1

/-- The build the engine is compiled for: whether `WIN32` is defined, and the
answer of the operating system's wide-string conversion, `none` when the
reported length is 0 (conversion failed), else the converted text without its
terminator. -/
structure Platform where
  WIN32 : Bool
  WideCharToMultiByte : List Nat → Option String

/-- The function `std::to_string` on an integer: its decimal digits, with a
leading minus sign when negative. -/
def to_string (value : Int) : String :=
  match value with
  | Int.ofNat n => Nat.repr n
  | Int.negSucc n => "-" ++ Nat.repr (n + 1)

/-- The member `AudioContext::GetDeviceId` (lines 93-172). -/
def GetDeviceId (platform : Platform) (deviceId : ma_device_id) (api : Nat)
    (deviceName : String) : String :=
  if api ≥ MA_BACKEND_COUNT || api == UINT_MAX then deviceName
  else if api == ma_backend_wasapi && platform.WIN32 then
    match platform.WideCharToMultiByte deviceId.wasapi with
    | none => ""
    | some result => result
  else if api == ma_backend_dsound then deviceName
  else if api == ma_backend_winmm then to_string deviceId.winmm
  else if api == ma_backend_coreaudio then deviceId.coreaudio
  else if api == ma_backend_sndio then deviceId.sndio
  else if api == ma_backend_audio4 then deviceId.audio4
  else if api == ma_backend_oss then deviceId.oss
  else if api == ma_backend_pulseaudio then deviceId.pulse
  else if api == ma_backend_alsa then deviceId.alsa
  else if api == ma_backend_jack then to_string deviceId.jack
  else if api == ma_backend_aaudio then to_string deviceId.aaudio
  else if api == ma_backend_opensl then to_string deviceId.opensl
  else if api == ma_backend_webaudio then deviceId.webaudio
  else if api == ma_backend_null then to_string deviceId.nullbackend
  else deviceName

/-- The member `AudioContext::Close` (lines 25-38). -/
def Close (self : AudioContext) : AudioContext :=
  let self :=
    if self.captureInitialized then
      { self with captureDevice := ma_device_uninit self.captureDevice
                  captureInitialized := false }
    else self
  let self :=
    if self.playbackInitialized then
      { self with playbackDevice := ma_device_uninit self.playbackDevice
                  playbackInitialized := false }
    else self
  { self with context := ma_context_uninit self.context }

/-- The member `AudioContext::DestroyDevices` (lines 385-392). -/
def DestroyDevices (self : AudioContext) : AudioContext :=
  { self with captureDevice := ma_device_uninit self.captureDevice
              captureInitialized := false
              playbackDevice := ma_device_uninit self.playbackDevice
              playbackInitialized := false }

/-- The member `AudioContext::SetAudioApi` (lines 174-178). -/
def SetAudioApi (self : AudioContext) (api : Nat) : AudioContext :=
  { self with audioApi := api }

/-- The member `AudioContext::SetCaptureDevice` (lines 180-184). -/
def SetCaptureDevice (self : AudioContext) (deviceName : String) : AudioContext :=
  { self with captureDeviceName := deviceName }

/-- The member `AudioContext::SetPlaybackDevice` (lines 186-190). -/
def SetPlaybackDevice (self : AudioContext) (deviceName : String) : AudioContext :=
  { self with playbackDeviceName := deviceName }

/-- The member `AudioContext::StartRecording` (lines 192-224): the new state and
the returned flag. -/
def StartRecording (self : AudioContext) (deviceName : String) (native : NativeAnswers) :
    AudioContext × Bool :=
  let self := { self with audioBuffer := [] }
  let startStream := fun (self : AudioContext) =>
    if native.deviceStartResult ≠ MA_SUCCESS then
      ({ self with captureDevice := ma_device_uninit self.captureDevice }, false)
    else
      ({ self with captureDevice :=
            ma_device_start self.captureDevice native.deviceStartResult }, true)
  if !self.captureInitialized then
    match GetDeviceFromName native deviceName true with
    | none => (self, false)
    | some _deviceId =>
      if native.deviceInitResult ≠ MA_SUCCESS then
        ({ self with captureDevice := ma_device_init native.deviceInitResult }, false)
      else
        startStream { self with captureDevice := ma_device_init native.deviceInitResult
                                captureInitialized := true }
  else
    startStream self

/-- The member `AudioContext::StopRecording` (lines 226-231): the new state and
the returned copy of the buffer. -/
def StopRecording (self : AudioContext) : AudioContext × List Byte :=
  let self := { self with captureDevice := ma_device_stop self.captureDevice }
  (self, self.audioBuffer)

/-- The callback `AudioContext::MicrophoneCallback` (lines 233-242).  `channels`
is `pDevice->capture.channels`, `pInput` the memory the subsystem delivers. -/
def MicrophoneCallback (pContext : AudioContext) (channels : Nat) (pInput : List Byte)
    (frameCount : Nat) : Option AudioContext :=
  let byteCount := frameCount * channels * 2 % SIZE_MOD
  (readBytes pInput 0 byteCount).map fun inputData =>
    { pContext with audioBuffer := pContext.audioBuffer ++ inputData }

/-- The member `AudioContext::StartBufferPlayback` (lines 244-285).  The caller's
memory at `buffer` is the list `buffer`, of which `bufferSize` bytes are copied. -/
def StartBufferPlayback (self : AudioContext) (buffer : List Byte) (bufferSize : Nat)
    (native : NativeAnswers) : AudioContext × Bool :=
  let self := { self with playbackPos := 0 }
  let self := { self with audioBuffer := [] }
  let self := { self with audioBuffer := resize self.audioBuffer bufferSize }
  let self := { self with audioBuffer := memcpy self.audioBuffer buffer bufferSize }
  let self := { self with audioBuffer := AddSilence self.audioBuffer sampleRateHz 3 }
  let startStream := fun (self : AudioContext) =>
    if native.deviceStartResult ≠ MA_SUCCESS then
      ({ self with bufferPlaybackDevice :=
            ma_device_start self.bufferPlaybackDevice native.deviceStartResult }, false)
    else
      ({ self with bufferPlaybackDevice :=
            ma_device_start self.bufferPlaybackDevice native.deviceStartResult }, true)
  if !self.bufferPlaybackInitialized then
    if native.deviceInitResult ≠ MA_SUCCESS then
      ({ self with bufferPlaybackDevice :=
            ma_device_uninit (ma_device_init native.deviceInitResult) }, false)
    else
      startStream { self with bufferPlaybackDevice := ma_device_init native.deviceInitResult
                              bufferPlaybackInitialized := true }
  else
    startStream self

/-- The member `AudioContext::StopBufferPlayback` (lines 287-293). -/
def StopBufferPlayback (self : AudioContext) : AudioContext × Bool :=
  ({ self with bufferPlaybackDevice := ma_device_stop self.bufferPlaybackDevice
               playbackPos := 0 }, true)

/-- The member `AudioContext::StartPlayback` (lines 295-328). -/
def StartPlayback (self : AudioContext) (deviceName : String) (native : NativeAnswers) :
    AudioContext × Bool :=
  let self := { self with playbackPos := 0 }
  let startStream := fun (self : AudioContext) =>
    if native.deviceStartResult ≠ MA_SUCCESS then
      ({ self with playbackDevice :=
            ma_device_start self.playbackDevice native.deviceStartResult }, false)
    else
      ({ self with playbackDevice :=
            ma_device_start self.playbackDevice native.deviceStartResult }, true)
  if !self.playbackInitialized then
    match GetDeviceFromName native deviceName false with
    | none => (self, false)
    | some _deviceId =>
      if native.deviceInitResult ≠ MA_SUCCESS then
        ({ self with playbackDevice :=
              ma_device_uninit (ma_device_init native.deviceInitResult) }, false)
      else
        startStream { self with playbackDevice := ma_device_init native.deviceInitResult
                                playbackInitialized := true }
  else
    startStream self

/-- The member `AudioContext::StopPlayback` (lines 330-335). -/
def StopPlayback (self : AudioContext) : AudioContext × Bool :=
  ({ self with playbackDevice := ma_device_stop self.playbackDevice
               playbackPos := 0 }, true)

/-- The engine states after each of a sequence of `MicrophoneCallback`
deliveries, each a pair of delivered memory and frame count, in delivery order. -/
def deliverAll (channels : Nat) : AudioContext → List (List Byte × Nat) → Option AudioContext
  | s, [] => some s
  | s, d :: ds =>
    match MicrophoneCallback s channels d.1 d.2 with
    | none => none
    | some s1 => deliverAll channels s1 ds

/-- A small engine state used in the examples: fresh engine with the given
cursor and buffer. -/
def exampleState (pos : Nat) (buf : List Byte) : AudioContext :=
  { AudioContext.new with playbackPos := pos, audioBuffer := buf }

/-- A device identifier with every member zeroed: empty strings and zero
numbers. -/
def zeroDeviceId : ma_device_id :=
  { wasapi := [], winmm := 0, alsa := "", pulse := "", jack := 0, coreaudio := ""
    sndio := "", audio4 := "", oss := "", aaudio := 0, opensl := 0, webaudio := ""
    nullbackend := 0 }

/-- Answers of a native subsystem that enumerates one capture device and one
playback device, both named `Mic`, and answers `deviceInitResult` and
`deviceStartResult` to opening and starting a stream. -/
def micNative (deviceInitResult deviceStartResult : ma_result) : NativeAnswers :=
  { getDevicesResult := MA_SUCCESS
    playbackInfos := [{ id := zeroDeviceId, name := "Mic", isDefault := true }]
    captureInfos := [{ id := zeroDeviceId, name := "Mic", isDefault := true }]
    deviceInitResult := deviceInitResult
    deviceStartResult := deviceStartResult }

/-- A build without `WIN32`. -/
def posixPlatform : Platform :=
  { WIN32 := false, WideCharToMultiByte := fun _ => none }

/-- The operations that act on the engine after construction: the six control
operations, each with the answers of the native subsystem during the call, and
the two callbacks with the arguments the subsystem passes. -/
inductive EngineOp where
  | startRecording (deviceName : String) (native : NativeAnswers)
  | stopRecording
  | startBufferPlayback (buffer : List Byte) (bufferSize : Nat) (native : NativeAnswers)
  | stopBufferPlayback
  | startPlayback (deviceName : String) (native : NativeAnswers)
  | stopPlayback
  | microphoneCallback (channels : Nat) (pInput : List Byte) (frameCount : Nat)
  | playbackCallback (channels frameCount : Nat)
deriving DecidableEq, Repr

/-- The engine state after one operation; `none` when a callback reads outside
the memory it is given. -/
def applyOp (s : AudioContext) : EngineOp → Option AudioContext
  | .startRecording deviceName native => some (StartRecording s deviceName native).1
  | .stopRecording => some (StopRecording s).1
  | .startBufferPlayback buffer bufferSize native =>
    some (StartBufferPlayback s buffer bufferSize native).1
  | .stopBufferPlayback => some (StopBufferPlayback s).1
  | .startPlayback deviceName native => some (StartPlayback s deviceName native).1
  | .stopPlayback => some (StopPlayback s).1
  | .microphoneCallback channels pInput frameCount =>
    MicrophoneCallback s channels pInput frameCount
  | .playbackCallback channels frameCount =>
    (PlaybackCallback s channels frameCount).map fun r => r.1

/-- The engine state after a sequence of operations, in order. -/
def runOps : AudioContext → List EngineOp → Option AudioContext
  | s, [] => some s
  | s, op :: ops =>
    match applyOp s op with
    | none => none
    | some s1 => runOps s1 ops

/-- A duplex session: record two mono frames from `Mic`, stop, play the
recording back on `Mic`, let one period of one frame play, and start recording
again while the playback stream is running. -/
def duplexSession : List EngineOp :=
  [ .startRecording "Mic" (micNative 0 0)
  , .microphoneCallback 1 [1, 2, 3, 4] 2
  , .stopRecording
  , .startPlayback "Mic" (micNative 0 0)
  , .playbackCallback 1 1
  , .startRecording "Mic" (micNative 0 0) ]

/-! ## Playback callback -/

/-- The remaining-byte count of `PlaybackCallback` does not wrap when the cursor
is inside the buffer. -/
theorem remaining_of_le {B p : Nat} (hB : B < SIZE_MOD) (hp : p ≤ B) :
    (B + SIZE_MOD - p) % SIZE_MOD = B - p := by
  have h : B + SIZE_MOD - p = (B - p) + SIZE_MOD := by omega
  rw [h, Nat.add_mod_right, Nat.mod_eq_of_lt (by omega)]

/-- One `PlaybackCallback` invocation with the cursor inside the buffer, in
closed form. -/
theorem PlaybackCallback_of_le (s : AudioContext) (channels frameCount : Nat)
    (hB : s.audioBuffer.length < SIZE_MOD) (hp : s.playbackPos ≤ s.audioBuffer.length) :
    PlaybackCallback s channels frameCount =
      some ({ s with playbackPos :=
                if s.playbackPos < s.audioBuffer.length ∧
                    s.playbackPos + frameCount * channels * 2 % SIZE_MOD ≤ s.audioBuffer.length
                then s.playbackPos + frameCount * channels * 2 % SIZE_MOD else 0 },
            (s.audioBuffer.drop s.playbackPos).take
                (min (frameCount * channels * 2 % SIZE_MOD)
                  (s.audioBuffer.length - s.playbackPos)) ++
              List.replicate
                (frameCount * channels * 2 % SIZE_MOD -
                  min (frameCount * channels * 2 % SIZE_MOD)
                    (s.audioBuffer.length - s.playbackPos)) 0) := by
  have hR : frameCount * channels * 2 % SIZE_MOD < SIZE_MOD := Nat.mod_lt _ (by decide)
  unfold PlaybackCallback
  simp only [remaining_of_le hB hp]
  generalize frameCount * channels * 2 % SIZE_MOD = R at hR ⊢
  rcases Nat.lt_or_ge s.playbackPos s.audioBuffer.length with hlt | hge
  · have hng : ¬ (s.playbackPos ≥ s.audioBuffer.length) := by omega
    by_cases hc : R ≤ s.audioBuffer.length - s.playbackPos
    · have h1 : s.playbackPos + R ≤ s.audioBuffer.length := by omega
      have h2 : (s.playbackPos + R) % SIZE_MOD = s.playbackPos + R :=
        Nat.mod_eq_of_lt (by omega)
      simp [readBytes, hng, hc, h1, h2, hlt, Nat.min_eq_left hc]
    · have h1 : ¬ (s.playbackPos + R ≤ s.audioBuffer.length) := by omega
      have h3 : s.playbackPos + (s.audioBuffer.length - s.playbackPos) ≤ s.audioBuffer.length := by
        omega
      have h4 : min R (s.audioBuffer.length - s.playbackPos) = s.audioBuffer.length - s.playbackPos :=
        Nat.min_eq_right (by omega)
      simp [readBytes, hng, hc, h1, h3, h4]
  · have hpe : s.playbackPos = s.audioBuffer.length := by omega
    have hnlt : ¬ (s.playbackPos < s.audioBuffer.length) := by omega
    simp only [hpe, Nat.sub_self, ge_iff_le, Nat.le_refl, if_true, Nat.lt_irrefl, false_and,
      if_false, Nat.le_zero, Nat.min_zero, Nat.sub_zero, Nat.zero_add]
    by_cases hc : R = 0
    · subst hc
      simp [readBytes]
    · simp [readBytes, hc]

/-- C1. Playback wraparound: with the cursor at `B - k`, where `k < R` and
`k ≤ B`, one `PlaybackCallback` invocation requesting `R` bytes writes exactly
`R` bytes, the first `k` being the last `k` bytes of the buffer and the other
`R - k` being zero, and leaves the cursor at 0; nothing else in the engine
state changes. -/
theorem PlaybackCallback_wraparound (s : AudioContext) (channels frameCount R k : Nat)
    (hB : s.audioBuffer.length < SIZE_MOD)
    (hR : frameCount * channels * 2 % SIZE_MOD = R)
    (hkR : k < R) (hkB : k ≤ s.audioBuffer.length)
    (hpos : s.playbackPos = s.audioBuffer.length - k) :
    ∃ out, PlaybackCallback s channels frameCount = some ({ s with playbackPos := 0 }, out) ∧
      out.length = R ∧
      out.take k = s.audioBuffer.drop (s.audioBuffer.length - k) ∧
      out.drop k = List.replicate (R - k) 0 := by
  have hp : s.playbackPos ≤ s.audioBuffer.length := by omega
  have hrem : s.audioBuffer.length - s.playbackPos = k := by omega
  have hmin : min R k = k := Nat.min_eq_right (by omega)
  have hcur : ¬ (s.playbackPos < s.audioBuffer.length ∧
      s.playbackPos + R ≤ s.audioBuffer.length) := by omega
  have hlen : (s.audioBuffer.drop (s.audioBuffer.length - k)).length = k := by
    rw [List.length_drop]; omega
  have htake : (s.audioBuffer.drop (s.audioBuffer.length - k)).take k =
      s.audioBuffer.drop (s.audioBuffer.length - k) :=
    List.take_of_length_le (by omega)
  refine ⟨s.audioBuffer.drop (s.audioBuffer.length - k) ++ List.replicate (R - k) 0, ?_, ?_, ?_, ?_⟩
  · rw [PlaybackCallback_of_le s channels frameCount hB hp, hR, hrem, hmin, if_neg hcur, hpos,
      htake]
  · rw [List.length_append, hlen, List.length_replicate]; omega
  · rw [List.take_append_of_le_length (by omega), htake]
  · rw [List.drop_append_of_le_length (by omega), List.drop_of_length_le (by omega),
      List.nil_append]

/-- A run of C1 on a three-byte buffer with the cursor one byte in (`k = 2`)
and a request of two mono frames (`R = 4`). -/
theorem PlaybackCallback_wraparound_witness :
    (exampleState 1 [1, 2, 3]).audioBuffer.length < SIZE_MOD ∧
    2 * 1 * 2 % SIZE_MOD = 4 ∧
    ∃ out, PlaybackCallback (exampleState 1 [1, 2, 3]) 1 2 =
        some ({ exampleState 1 [1, 2, 3] with playbackPos := 0 }, out) ∧
      out.length = 4 ∧
      out.take 2 = (exampleState 1 [1, 2, 3]).audioBuffer.drop
        ((exampleState 1 [1, 2, 3]).audioBuffer.length - 2) ∧
      out.drop 2 = List.replicate (4 - 2) 0 :=
  ⟨by decide, by decide,
    PlaybackCallback_wraparound (exampleState 1 [1, 2, 3]) 1 2 4 2
      (by decide) (by decide) (by decide) (by decide) (by decide)⟩

/-- C2, as stated, fails when the request ends exactly at the end of the
buffer: with a two-byte buffer, the cursor at 0 and a request of two bytes
(`p + R = B`) the cursor afterwards is 2, not 0. -/
theorem PlaybackCallback_exact_end_cursor :
    (exampleState 0 [1, 2]).playbackPos + 1 * 1 * 2 % SIZE_MOD ≥
        (exampleState 0 [1, 2]).audioBuffer.length ∧
    ∃ s1 out, PlaybackCallback (exampleState 0 [1, 2]) 1 1 = some (s1, out) ∧
      s1.playbackPos = 2 ∧ s1.playbackPos ≠ 0 :=
  ⟨by decide, { exampleState 0 [1, 2] with playbackPos := 2 }, [1, 2], by decide, rfl, by decide⟩

/-- C2, amended. Playback step: with the cursor `p ≤ B`, one `PlaybackCallback`
invocation requesting `R` bytes writes the `min R (B - p)` buffer bytes from
offset `p` followed by zeros up to `R` bytes, and leaves the cursor at `p + R`
when `p < B` and `p + R ≤ B`, and at 0 otherwise (`p + R > B`, or `p = B`);
nothing else in the engine state changes. -/
theorem PlaybackCallback_step (s : AudioContext) (channels frameCount R : Nat)
    (hB : s.audioBuffer.length < SIZE_MOD)
    (hp : s.playbackPos ≤ s.audioBuffer.length)
    (hR : frameCount * channels * 2 % SIZE_MOD = R) :
    PlaybackCallback s channels frameCount =
      some ({ s with playbackPos :=
                if s.playbackPos < s.audioBuffer.length ∧ s.playbackPos + R ≤ s.audioBuffer.length
                then s.playbackPos + R else 0 },
            (s.audioBuffer.drop s.playbackPos).take (min R (s.audioBuffer.length - s.playbackPos)) ++
              List.replicate (R - min R (s.audioBuffer.length - s.playbackPos)) 0) := by
  rw [PlaybackCallback_of_le s channels frameCount hB hp, hR]

/-- A run of the amended C2 where the request ends exactly at the end of the
buffer. -/
theorem PlaybackCallback_step_witness :
    PlaybackCallback (exampleState 0 [1, 2]) 1 1 =
      some ({ exampleState 0 [1, 2] with playbackPos :=
                if (exampleState 0 [1, 2]).playbackPos < (exampleState 0 [1, 2]).audioBuffer.length ∧
                    (exampleState 0 [1, 2]).playbackPos + 2 ≤
                      (exampleState 0 [1, 2]).audioBuffer.length
                then (exampleState 0 [1, 2]).playbackPos + 2 else 0 },
            ((exampleState 0 [1, 2]).audioBuffer.drop (exampleState 0 [1, 2]).playbackPos).take
                (min 2 ((exampleState 0 [1, 2]).audioBuffer.length -
                  (exampleState 0 [1, 2]).playbackPos)) ++
              List.replicate (2 - min 2 ((exampleState 0 [1, 2]).audioBuffer.length -
                  (exampleState 0 [1, 2]).playbackPos)) 0) :=
  PlaybackCallback_step (exampleState 0 [1, 2]) 1 1 2 (by decide) (by decide) (by decide)

/-! ## Buffer replacement and silence -/

/-- Zeroing a span that `resize` has just added leaves the vector as it is. -/
theorem memset_appended_zeros (buffer : List Byte) (n : Nat) :
    memset (buffer ++ List.replicate n 0) buffer.length 0 n = buffer ++ List.replicate n 0 := by
  unfold memset
  apply List.ext_getElem
  · simp
  · intro i h1 h2
    rw [List.getElem_mapIdx]
    split
    · next hc =>
      rw [List.getElem_append_right hc.1]
      simp
    · rfl

/-- Growing a vector by `n` bytes appends `n` zero bytes. -/
theorem resize_grow (buffer : List Byte) (n : Nat) :
    resize buffer (buffer.length + n) = buffer ++ List.replicate n 0 := by
  unfold resize
  rw [List.take_of_length_le (Nat.le_add_right _ _), Nat.add_sub_cancel_left]

/-- What `AddSilence` computes, when the new size fits `size_t`: the buffer
followed by `sampleRate * durationInSeconds` zero bytes. -/
theorem AddSilence_eq (buffer : List Byte) (sampleRate durationInSeconds : Nat)
    (h : buffer.length + sampleRate * durationInSeconds < SIZE_MOD) :
    AddSilence buffer sampleRate durationInSeconds =
      buffer ++ List.replicate (sampleRate * durationInSeconds) 0 := by
  unfold AddSilence
  have h1 : sampleRate * durationInSeconds % SIZE_MOD = sampleRate * durationInSeconds :=
    Nat.mod_eq_of_lt (by omega)
  have h2 : (buffer.length + sampleRate * durationInSeconds) % SIZE_MOD =
      buffer.length + sampleRate * durationInSeconds := Nat.mod_eq_of_lt h
  simp only [h1, h2, resize_grow, List.length_append, List.length_replicate,
    Nat.add_sub_cancel]
  exact memset_appended_zeros buffer _

/-- The shared buffer and the cursor after `StartBufferPlayback`, whatever the
native subsystem answers. -/
theorem StartBufferPlayback_buffer (s : AudioContext) (buffer : List Byte) (bufferSize : Nat)
    (native : NativeAnswers) :
    (StartBufferPlayback s buffer bufferSize native).1.playbackPos = 0 ∧
    (StartBufferPlayback s buffer bufferSize native).1.audioBuffer =
      AddSilence (memcpy (resize [] bufferSize) buffer bufferSize) sampleRateHz 3 := by
  unfold StartBufferPlayback
  by_cases h1 : s.bufferPlaybackInitialized = true <;>
    by_cases h2 : native.deviceInitResult = MA_SUCCESS <;>
    by_cases h3 : native.deviceStartResult = MA_SUCCESS <;>
    simp [h1, h2, h3]

/-- Copying the whole input over a fresh vector of its size gives the input. -/
theorem memcpy_fresh (buffer : List Byte) :
    memcpy (resize [] buffer.length) buffer buffer.length = buffer := by
  simp [memcpy, resize]

/-- C3. Buffer replacement: from any engine state, after
`StartBufferPlayback(buf, N)` the cursor is 0, the first `N` bytes of the
shared buffer are `buf` and all bytes after them are zero (so the buffer does
not depend on the previous state); `StopBufferPlayback` afterwards leaves the
cursor at 0 and the buffer unchanged. -/
theorem StartBufferPlayback_replaces (s : AudioContext) (buffer : List Byte) (N : Nat)
    (native : NativeAnswers) (hN : buffer.length = N)
    (hfit : N + sampleRateHz * 3 < SIZE_MOD) :
    (StartBufferPlayback s buffer N native).1.playbackPos = 0 ∧
    (StartBufferPlayback s buffer N native).1.audioBuffer.take N = buffer ∧
    (StartBufferPlayback s buffer N native).1.audioBuffer.drop N =
      List.replicate ((StartBufferPlayback s buffer N native).1.audioBuffer.length - N) 0 ∧
    (∀ s0 : AudioContext, ∀ native0 : NativeAnswers,
      (StartBufferPlayback s0 buffer N native0).1.audioBuffer =
        (StartBufferPlayback s buffer N native).1.audioBuffer) ∧
    (StopBufferPlayback (StartBufferPlayback s buffer N native).1).1.playbackPos = 0 ∧
    (StopBufferPlayback (StartBufferPlayback s buffer N native).1).1.audioBuffer =
      (StartBufferPlayback s buffer N native).1.audioBuffer := by
  subst hN
  have hb : ∀ (s0 : AudioContext) (native0 : NativeAnswers),
      (StartBufferPlayback s0 buffer buffer.length native0).1.audioBuffer =
        buffer ++ List.replicate (sampleRateHz * 3) 0 := by
    intro s0 native0
    rw [(StartBufferPlayback_buffer s0 buffer buffer.length native0).2, memcpy_fresh,
      AddSilence_eq buffer sampleRateHz 3 hfit]
  refine ⟨(StartBufferPlayback_buffer s buffer buffer.length native).1, ?_, ?_, ?_, rfl, rfl⟩
  · rw [hb, List.take_left]
  · rw [hb, List.drop_left, List.length_append, List.length_replicate, Nat.add_sub_cancel_left]
  · intro s0 native0
    rw [hb, hb]

/-- A run of C3 replacing a three-byte buffer by a two-byte one. -/
theorem StartBufferPlayback_replaces_witness :
    ([1, 2] : List Byte).length = 2 ∧ 2 + sampleRateHz * 3 < SIZE_MOD ∧
    (StartBufferPlayback (exampleState 2 [9, 9, 9]) [1, 2] 2 ⟨0, [], [], 0, 0⟩).1.playbackPos = 0 ∧
    (StartBufferPlayback (exampleState 2 [9, 9, 9]) [1, 2] 2
      ⟨0, [], [], 0, 0⟩).1.audioBuffer.take 2 = [1, 2] :=
  have h := StartBufferPlayback_replaces (exampleState 2 [9, 9, 9]) [1, 2] 2 ⟨0, [], [], 0, 0⟩
    (by decide) (by decide)
  ⟨by decide, by decide, h.1, h.2.1⟩

/-! ## Capture -/

/-- Every path of `StartRecording` leaves the shared buffer empty. -/
theorem StartRecording_clears (s : AudioContext) (deviceName : String) (native : NativeAnswers) :
    (StartRecording s deviceName native).1.audioBuffer = [] := by
  unfold StartRecording
  by_cases h1 : s.captureInitialized = true <;>
    by_cases h2 : native.deviceInitResult = MA_SUCCESS <;>
    by_cases h3 : native.deviceStartResult = MA_SUCCESS <;>
    cases h4 : GetDeviceFromName native deviceName true <;>
    simp [h1, h2, h3]

/-- One delivery of `F` mono frames of 16-bit samples appends the delivered
bytes. -/
theorem MicrophoneCallback_mono (s : AudioContext) (pInput : List Byte) (F : Nat)
    (hlen : pInput.length = 2 * F) (hF : F < 4294967296) :
    MicrophoneCallback s 1 pInput F =
      some { s with audioBuffer := s.audioBuffer ++ pInput } := by
  unfold MicrophoneCallback
  have h0 : 2 * F < SIZE_MOD := by
    show 2 * F < 18446744073709551616
    omega
  have h1 : F * 2 % SIZE_MOD = pInput.length := by
    rw [hlen, Nat.mul_comm, Nat.mod_eq_of_lt h0]
  simp [h1, readBytes]

/-- A sequence of mono deliveries appends the delivered bytes in delivery
order. -/
theorem deliverAll_mono (ds : List (List Byte × Nat)) :
    ∀ s : AudioContext, (∀ d ∈ ds, d.1.length = 2 * d.2 ∧ d.2 < 4294967296) →
      deliverAll 1 s ds =
        some { s with audioBuffer := s.audioBuffer ++ (ds.map Prod.fst).flatten } := by
  induction ds with
  | nil => intro s _; simp [deliverAll]
  | cons d ds ih =>
    intro s h
    have hd := h d (List.mem_cons_self _ _)
    have hds : ∀ e ∈ ds, e.1.length = 2 * e.2 ∧ e.2 < 4294967296 :=
      fun e he => h e (List.mem_cons_of_mem _ he)
    simp only [deliverAll, MicrophoneCallback_mono s d.1 d.2 hd.1 hd.2, ih _ hds]
    simp [List.append_assoc]

/-- The byte count of a sequence of mono deliveries. -/
theorem delivered_length (ds : List (List Byte × Nat))
    (h : ∀ d ∈ ds, d.1.length = 2 * d.2 ∧ d.2 < 4294967296) :
    ((ds.map Prod.fst).flatten).length = 2 * (ds.map Prod.snd).sum := by
  induction ds with
  | nil => simp
  | cons d ds ih =>
    have hd := h d (List.mem_cons_self _ _)
    have hds : ∀ e ∈ ds, e.1.length = 2 * e.2 ∧ e.2 < 4294967296 :=
      fun e he => h e (List.mem_cons_of_mem _ he)
    simp only [List.map_cons, List.flatten_cons, List.length_append, List.sum_cons, ih hds, hd.1]
    omega

/-- The frame count of deliveries that all have `F` frames. -/
theorem frames_sum_const (ds : List (List Byte × Nat)) (F : Nat) (h : ∀ d ∈ ds, d.2 = F) :
    (ds.map Prod.snd).sum = ds.length * F := by
  induction ds with
  | nil => simp
  | cons d ds ih =>
    have hd := h d (List.mem_cons_self _ _)
    have hds : ∀ e ∈ ds, e.2 = F := fun e he => h e (List.mem_cons_of_mem _ he)
    simp only [List.map_cons, List.sum_cons, List.length_cons, ih hds, hd]
    rw [Nat.add_mul, Nat.one_mul, Nat.add_comm]

/-- C4. Capture accumulation: after `StartRecording` (whatever it returns),
every sequence of `MicrophoneCallback` deliveries of 16-bit mono audio, the
i-th of `F_i` frames, is accepted, and `StopRecording` then returns exactly
the delivered bytes concatenated in delivery order, `2 * (F_1 + ... + F_N)`
bytes (`N * F * 2` when every delivery has `F` frames), and leaves the internal
buffer unchanged. -/
theorem capture_accumulates (s : AudioContext) (deviceName : String) (native : NativeAnswers)
    (ds : List (List Byte × Nat))
    (h : ∀ d ∈ ds, d.1.length = 2 * d.2 ∧ d.2 < 4294967296) :
    ∃ s2, deliverAll 1 (StartRecording s deviceName native).1 ds = some s2 ∧
      (StopRecording s2).2 = (ds.map Prod.fst).flatten ∧
      (StopRecording s2).2.length = 2 * (ds.map Prod.snd).sum ∧
      (∀ F, (∀ d ∈ ds, d.2 = F) → (StopRecording s2).2.length = ds.length * F * 2) ∧
      (StopRecording s2).1.audioBuffer = s2.audioBuffer := by
  refine ⟨_, deliverAll_mono ds _ h, ?_, ?_, ?_, rfl⟩
  · simp [StopRecording, StartRecording_clears]
  · simp only [StopRecording, StartRecording_clears, List.nil_append]
    exact delivered_length ds h
  · intro F hF
    simp only [StopRecording, StartRecording_clears, List.nil_append]
    rw [delivered_length ds h, frames_sum_const ds F hF, Nat.mul_comm]

/-- A run of C4 with two deliveries, of one and of two frames. -/
theorem capture_accumulates_witness :
    (∀ d ∈ ([([1, 2], 1), ([3, 4, 5, 6], 2)] : List (List Byte × Nat)),
      d.1.length = 2 * d.2 ∧ d.2 < 4294967296) ∧
    ∃ s2, deliverAll 1 (StartRecording (exampleState 1 [9]) "Mic" ⟨0, [], [], 0, 0⟩).1
        [([1, 2], 1), ([3, 4, 5, 6], 2)] = some s2 ∧
      (StopRecording s2).2 = [1, 2, 3, 4, 5, 6] :=
  have h : ∀ d ∈ ([([1, 2], 1), ([3, 4, 5, 6], 2)] : List (List Byte × Nat)),
      d.1.length = 2 * d.2 ∧ d.2 < 4294967296 := by decide
  ⟨h, by
    obtain ⟨s2, h1, h2, _⟩ :=
      capture_accumulates (exampleState 1 [9]) "Mic" ⟨0, [], [], 0, 0⟩
        [([1, 2], 1), ([3, 4, 5, 6], 2)] h
    exact ⟨s2, h1, h2⟩⟩

/-- C6 on the code: `AddSilence(buffer, Hz, S)` appends `S * Hz` zero bytes, not
`S * Hz * 2`: one second at 1 Hz appends one byte, and the shared buffer after
`StartBufferPlayback(buf, 2)` has `2 + 48000 * 3` bytes, not
`2 + 48000 * 3 * 2`. -/
theorem AddSilence_appends_one_byte_per_sample :
    AddSilence [7] 1 1 = [7, 0] ∧
    (AddSilence [] 48000 3).length = 144000 ∧
    (StartBufferPlayback AudioContext.new [1, 2] 2 (micNative 0 0)).1.audioBuffer.length
      = 2 + 48000 * 3 ∧
    (StartBufferPlayback AudioContext.new [1, 2] 2 (micNative 0 0)).1.audioBuffer.length
      ≠ 2 + 48000 * 3 * 2 := by
  have h1 : (AddSilence [] 48000 3).length = 144000 := by
    rw [AddSilence_eq [] 48000 3 (by decide), List.nil_append, List.length_replicate]
  have h2 : (StartBufferPlayback AudioContext.new [1, 2] 2
      (micNative 0 0)).1.audioBuffer.length = 2 + 48000 * 3 := by
    rw [(StartBufferPlayback_buffer AudioContext.new [1, 2] 2 (micNative 0 0)).2]
    rw [show (2 : Nat) = ([1, 2] : List Byte).length from rfl, memcpy_fresh,
      AddSilence_eq [1, 2] sampleRateHz 3 (by decide), List.length_append,
      List.length_replicate]
    rfl
  refine ⟨by decide, h1, h2, ?_⟩
  rw [h2]
  decide

/-! ## Device identity -/

/-- The digit accumulator of `Nat.toDigits` is never empty once a digit has been
produced. -/
theorem toDigitsCore_ne_nil (b : Nat) :
    ∀ (fuel n : Nat) (ds : List Char), (fuel = 0 → ds ≠ []) →
      Nat.toDigitsCore b fuel n ds ≠ [] := by
  intro fuel
  induction fuel with
  | zero => intro n ds h; simpa [Nat.toDigitsCore] using h rfl
  | succ fuel ih =>
    intro n ds _
    unfold Nat.toDigitsCore
    by_cases h0 : n / b = 0
    · simp [h0]
    · simpa [h0] using ih (n / b) ((n % b).digitChar :: ds) (fun _ => by simp)

/-- The decimal digits of a natural number are not the empty string. -/
theorem repr_ne_empty (n : Nat) : Nat.repr n ≠ "" := by
  intro h
  have h1 : (Nat.repr n).data = [] := by rw [h]
  exact toDigitsCore_ne_nil 10 (n + 1) n [] (by simp) h1

/-- The result of `std::to_string` is never empty. -/
theorem to_string_ne_empty (value : Int) : to_string value ≠ "" := by
  cases value with
  | ofNat n => exact repr_ne_empty n
  | negSucc n =>
    intro h
    have h1 : ("-" ++ Nat.repr (n + 1)).data = [] := by
      have h2 : "-" ++ Nat.repr (n + 1) = "" := h
      rw [h2]
    simp at h1

/-- C7, as stated, fails: for the coreaudio backend and a device identifier whose
character array is empty, `GetDeviceId` returns the empty string, which is
neither non-empty nor the fallback name `Mic`. -/
theorem GetDeviceId_empty_identifier :
    GetDeviceId posixPlatform zeroDeviceId ma_backend_coreaudio "Mic" = "" ∧
    GetDeviceId posixPlatform zeroDeviceId ma_backend_coreaudio "Mic" ≠ "Mic" := by
  decide

/-- What `GetDeviceId` returns for each backend id below `MA_BACKEND_COUNT`
that has an identifier of its own: the decimal text of a numeric identifier,
a character-string identifier as it is, and on a `WIN32` build the converted
wasapi identifier, or the empty string when the conversion fails. -/
theorem GetDeviceId_values (platform : Platform) (deviceId : ma_device_id)
    (deviceName : String) :
    GetDeviceId platform deviceId ma_backend_winmm deviceName = to_string deviceId.winmm ∧
    GetDeviceId platform deviceId ma_backend_jack deviceName = to_string deviceId.jack ∧
    GetDeviceId platform deviceId ma_backend_aaudio deviceName = to_string deviceId.aaudio ∧
    GetDeviceId platform deviceId ma_backend_opensl deviceName = to_string deviceId.opensl ∧
    GetDeviceId platform deviceId ma_backend_null deviceName
      = to_string deviceId.nullbackend ∧
    GetDeviceId platform deviceId ma_backend_coreaudio deviceName = deviceId.coreaudio ∧
    GetDeviceId platform deviceId ma_backend_sndio deviceName = deviceId.sndio ∧
    GetDeviceId platform deviceId ma_backend_audio4 deviceName = deviceId.audio4 ∧
    GetDeviceId platform deviceId ma_backend_oss deviceName = deviceId.oss ∧
    GetDeviceId platform deviceId ma_backend_pulseaudio deviceName = deviceId.pulse ∧
    GetDeviceId platform deviceId ma_backend_alsa deviceName = deviceId.alsa ∧
    GetDeviceId platform deviceId ma_backend_webaudio deviceName = deviceId.webaudio ∧
    (platform.WIN32 = true → platform.WideCharToMultiByte deviceId.wasapi = none →
      GetDeviceId platform deviceId ma_backend_wasapi deviceName = "") ∧
    (platform.WIN32 = true → ∀ converted,
      platform.WideCharToMultiByte deviceId.wasapi = some converted →
      GetDeviceId platform deviceId ma_backend_wasapi deviceName = converted) := by
  and_intros
  all_goals
    intros
    simp [GetDeviceId, MA_BACKEND_COUNT, ma_backend_null, ma_backend_wasapi,
      ma_backend_dsound, ma_backend_winmm, ma_backend_coreaudio, ma_backend_sndio,
      ma_backend_audio4, ma_backend_oss, ma_backend_pulseaudio, ma_backend_alsa,
      ma_backend_jack, ma_backend_aaudio, ma_backend_opensl, ma_backend_webaudio, *]

/-- What `GetDeviceId` returns where it falls back: the fallback name, for a
backend id that is unknown or out of range, for dsound, for the custom backend
and for wasapi off `WIN32`. -/
theorem GetDeviceId_fallback (platform : Platform) (deviceId : ma_device_id) (api : Nat)
    (deviceName : String)
    (h : api ≥ MA_BACKEND_COUNT ∨ api = ma_backend_dsound ∨ api = ma_backend_custom ∨
      (api = ma_backend_wasapi ∧ platform.WIN32 = false)) :
    GetDeviceId platform deviceId api deviceName = deviceName := by
  rcases h with h | h | h | ⟨h, hW⟩
  · simp [GetDeviceId, h]
  · subst h
    simp [GetDeviceId, MA_BACKEND_COUNT, ma_backend_null, ma_backend_wasapi, ma_backend_dsound]
  · subst h
    simp [GetDeviceId, MA_BACKEND_COUNT, ma_backend_null, ma_backend_wasapi,
      ma_backend_dsound, ma_backend_winmm, ma_backend_coreaudio, ma_backend_sndio,
      ma_backend_audio4, ma_backend_oss, ma_backend_pulseaudio, ma_backend_alsa,
      ma_backend_jack, ma_backend_aaudio, ma_backend_opensl, ma_backend_webaudio,
      ma_backend_custom]
  · subst h
    simp [GetDeviceId, MA_BACKEND_COUNT, ma_backend_null, ma_backend_wasapi,
      ma_backend_dsound, ma_backend_winmm, ma_backend_coreaudio, ma_backend_sndio,
      ma_backend_audio4, ma_backend_oss, ma_backend_pulseaudio, ma_backend_alsa,
      ma_backend_jack, ma_backend_aaudio, ma_backend_opensl, ma_backend_webaudio,
      ma_backend_custom, hW]

/-- C7, amended. `GetDeviceId` is total, and for every raw identifier, backend id
and fallback name:
* its result is non-empty, or is the fallback name, or the backend is one
  identified by a character string (coreaudio, sndio, audio4, oss, pulseaudio,
  alsa, webaudio, and wasapi on a `WIN32` build) whose identifier is empty or
  whose conversion fails or converts to the empty string;
* for an unknown or out-of-range backend id, for dsound, for the custom backend
  and for wasapi off `WIN32` the result is the fallback name itself;
* for the backends identified by a number (winmm, jack, aaudio, opensl, null)
  the result is the decimal text of that number, `std::to_string` of it, which
  is never empty;
* for the backends identified by a character string the result is that
  string, unchanged;
* for wasapi on a `WIN32` build the result is the converted identifier, and the
  empty string when the conversion fails. -/
theorem GetDeviceId_total (platform : Platform) (deviceId : ma_device_id) (api : Nat)
    (deviceName : String) :
    (GetDeviceId platform deviceId api deviceName ≠ "" ∨
      GetDeviceId platform deviceId api deviceName = deviceName ∨
      (api = ma_backend_coreaudio ∧ deviceId.coreaudio = "") ∨
      (api = ma_backend_sndio ∧ deviceId.sndio = "") ∨
      (api = ma_backend_audio4 ∧ deviceId.audio4 = "") ∨
      (api = ma_backend_oss ∧ deviceId.oss = "") ∨
      (api = ma_backend_pulseaudio ∧ deviceId.pulse = "") ∨
      (api = ma_backend_alsa ∧ deviceId.alsa = "") ∨
      (api = ma_backend_webaudio ∧ deviceId.webaudio = "") ∨
      (api = ma_backend_wasapi ∧ platform.WIN32 = true ∧
        (platform.WideCharToMultiByte deviceId.wasapi = none ∨
          platform.WideCharToMultiByte deviceId.wasapi = some ""))) ∧
    (api ≥ MA_BACKEND_COUNT ∨ api = ma_backend_dsound ∨ api = ma_backend_custom ∨
        (api = ma_backend_wasapi ∧ platform.WIN32 = false) →
      GetDeviceId platform deviceId api deviceName = deviceName) ∧
    (api = ma_backend_winmm ∨ api = ma_backend_jack ∨ api = ma_backend_aaudio ∨
        api = ma_backend_opensl ∨ api = ma_backend_null →
      GetDeviceId platform deviceId api deviceName ≠ "") ∧
    (api = ma_backend_winmm →
      GetDeviceId platform deviceId api deviceName = to_string deviceId.winmm) ∧
    (api = ma_backend_jack →
      GetDeviceId platform deviceId api deviceName = to_string deviceId.jack) ∧
    (api = ma_backend_aaudio →
      GetDeviceId platform deviceId api deviceName = to_string deviceId.aaudio) ∧
    (api = ma_backend_opensl →
      GetDeviceId platform deviceId api deviceName = to_string deviceId.opensl) ∧
    (api = ma_backend_null →
      GetDeviceId platform deviceId api deviceName = to_string deviceId.nullbackend) ∧
    (api = ma_backend_coreaudio →
      GetDeviceId platform deviceId api deviceName = deviceId.coreaudio) ∧
    (api = ma_backend_sndio → GetDeviceId platform deviceId api deviceName = deviceId.sndio) ∧
    (api = ma_backend_audio4 → GetDeviceId platform deviceId api deviceName = deviceId.audio4) ∧
    (api = ma_backend_oss → GetDeviceId platform deviceId api deviceName = deviceId.oss) ∧
    (api = ma_backend_pulseaudio →
      GetDeviceId platform deviceId api deviceName = deviceId.pulse) ∧
    (api = ma_backend_alsa → GetDeviceId platform deviceId api deviceName = deviceId.alsa) ∧
    (api = ma_backend_webaudio →
      GetDeviceId platform deviceId api deviceName = deviceId.webaudio) ∧
    (api = ma_backend_wasapi → platform.WIN32 = true →
      platform.WideCharToMultiByte deviceId.wasapi = none →
      GetDeviceId platform deviceId api deviceName = "") ∧
    (api = ma_backend_wasapi → platform.WIN32 = true → ∀ converted,
      platform.WideCharToMultiByte deviceId.wasapi = some converted →
      GetDeviceId platform deviceId api deviceName = converted) := by
  obtain ⟨vwinmm, vjack, vaaudio, vopensl, vnull, vcore, vsndio, vaudio4, voss, vpulse,
    valsa, vweb, vwfail, vwok⟩ := GetDeviceId_values platform deviceId deviceName
  have hfb := GetDeviceId_fallback platform deviceId api deviceName
  have hnum : api = ma_backend_winmm ∨ api = ma_backend_jack ∨ api = ma_backend_aaudio ∨
      api = ma_backend_opensl ∨ api = ma_backend_null →
      GetDeviceId platform deviceId api deviceName ≠ "" := by
    rintro (h | h | h | h | h) <;> subst h
    · rw [vwinmm]; exact to_string_ne_empty _
    · rw [vjack]; exact to_string_ne_empty _
    · rw [vaaudio]; exact to_string_ne_empty _
    · rw [vopensl]; exact to_string_ne_empty _
    · rw [vnull]; exact to_string_ne_empty _
  refine ⟨?_, hfb, hnum, ?_, ?_, ?_, ?_, ?_, ?_, ?_, ?_, ?_, ?_, ?_, ?_, ?_, ?_⟩
  · by_cases hne : GetDeviceId platform deviceId api deviceName = ""
    · right
      rcases Nat.lt_or_ge api 15 with hlt | hge
      · have hcases : api = ma_backend_wasapi ∨ api = ma_backend_dsound ∨
            api = ma_backend_winmm ∨ api = ma_backend_coreaudio ∨ api = ma_backend_sndio ∨
            api = ma_backend_audio4 ∨ api = ma_backend_oss ∨ api = ma_backend_pulseaudio ∨
            api = ma_backend_alsa ∨ api = ma_backend_jack ∨ api = ma_backend_aaudio ∨
            api = ma_backend_opensl ∨ api = ma_backend_webaudio ∨ api = ma_backend_custom ∨
            api = ma_backend_null := by
          simp only [ma_backend_wasapi, ma_backend_dsound, ma_backend_winmm,
            ma_backend_coreaudio, ma_backend_sndio, ma_backend_audio4, ma_backend_oss,
            ma_backend_pulseaudio, ma_backend_alsa, ma_backend_jack, ma_backend_aaudio,
            ma_backend_opensl, ma_backend_webaudio, ma_backend_custom, ma_backend_null]
          omega
        rcases hcases with h | h | h | h | h | h | h | h | h | h | h | h | h | h | h
        · cases hW : platform.WIN32
          · exact Or.inl (hfb (Or.inr (Or.inr (Or.inr ⟨h, hW⟩))))
          · cases hC : platform.WideCharToMultiByte deviceId.wasapi with
            | none => exact Or.inr (Or.inr (Or.inr (Or.inr (Or.inr (Or.inr (Or.inr (Or.inr
                ⟨h, rfl, Or.inl rfl⟩)))))))
            | some converted =>
              have hconv : converted = "" := by
                rw [← hne, h]
                exact (vwok hW converted hC).symm
              exact Or.inr (Or.inr (Or.inr (Or.inr (Or.inr (Or.inr (Or.inr (Or.inr
                ⟨h, rfl, Or.inr (by rw [hconv])⟩)))))))
        · exact Or.inl (hfb (Or.inr (Or.inl h)))
        · exact absurd hne (hnum (Or.inl h))
        · exact Or.inr (Or.inl ⟨h, by rw [← vcore, ← h]; exact hne⟩)
        · exact Or.inr (Or.inr (Or.inl ⟨h, by rw [← vsndio, ← h]; exact hne⟩))
        · exact Or.inr (Or.inr (Or.inr (Or.inl ⟨h, by rw [← vaudio4, ← h]; exact hne⟩)))
        · exact Or.inr (Or.inr (Or.inr (Or.inr (Or.inl
            ⟨h, by rw [← voss, ← h]; exact hne⟩))))
        · exact Or.inr (Or.inr (Or.inr (Or.inr (Or.inr (Or.inl
            ⟨h, by rw [← vpulse, ← h]; exact hne⟩)))))
        · exact Or.inr (Or.inr (Or.inr (Or.inr (Or.inr (Or.inr (Or.inl
            ⟨h, by rw [← valsa, ← h]; exact hne⟩))))))
        · exact absurd hne (hnum (Or.inr (Or.inl h)))
        · exact absurd hne (hnum (Or.inr (Or.inr (Or.inl h))))
        · exact absurd hne (hnum (Or.inr (Or.inr (Or.inr (Or.inl h)))))
        · exact Or.inr (Or.inr (Or.inr (Or.inr (Or.inr (Or.inr (Or.inr (Or.inl
            ⟨h, by rw [← vweb, ← h]; exact hne⟩)))))))
        · exact Or.inl (hfb (Or.inr (Or.inr (Or.inl h))))
        · exact absurd hne (hnum (Or.inr (Or.inr (Or.inr (Or.inr h)))))
      · exact Or.inl (hfb (Or.inl hge))
    · exact Or.inl hne
  · intro h; subst h; exact vwinmm
  · intro h; subst h; exact vjack
  · intro h; subst h; exact vaaudio
  · intro h; subst h; exact vopensl
  · intro h; subst h; exact vnull
  · intro h; subst h; exact vcore
  · intro h; subst h; exact vsndio
  · intro h; subst h; exact vaudio4
  · intro h; subst h; exact voss
  · intro h; subst h; exact vpulse
  · intro h; subst h; exact valsa
  · intro h; subst h; exact vweb
  · intro h; subst h; exact vwfail
  · intro h; subst h; exact vwok

/-! ## Stream teardown -/

/-- C8 on the code: on a fresh engine, with the device found and opened and the
start of the stream failing, `StartRecording` returns false and closes the
capture stream, but `captureInitialized` stays true. -/
theorem StartRecording_start_failure_keeps_flag :
    (StartRecording AudioContext.new "Mic" (micNative 0 (-1))).2 = false ∧
    (StartRecording AudioContext.new "Mic" (micNative 0 (-1))).1.captureDevice.initialized
      = false ∧
    (StartRecording AudioContext.new "Mic" (micNative 0 (-1))).1.captureInitialized = true := by
  decide

/-- C9 on the code: after a successful `StartBufferPlayback` on a fresh engine,
`Close` closes the subsystem context but leaves the buffer-playback stream
open and running with `bufferPlaybackInitialized` still true. -/
theorem Close_keeps_buffer_playback :
    (StartBufferPlayback AudioContext.new [1, 2] 2 (micNative 0 0)).2 = true ∧
    (Close (StartBufferPlayback AudioContext.new [1, 2] 2
      (micNative 0 0)).1).bufferPlaybackInitialized = true ∧
    (Close (StartBufferPlayback AudioContext.new [1, 2] 2
      (micNative 0 0)).1).bufferPlaybackDevice = { initialized := true, started := true } ∧
    (Close (StartBufferPlayback AudioContext.new [1, 2] 2
      (micNative 0 0)).1).context.initialized = false := by
  decide

/-! ## One pass over the buffer -/

/-- A period that lies wholly inside the buffer copies `R` bytes and advances
the cursor by `R`. -/
theorem PlaybackCallback_full (s : AudioContext) (channels frameCount R : Nat)
    (hB : s.audioBuffer.length < SIZE_MOD)
    (hR : frameCount * channels * 2 % SIZE_MOD = R) (hpos : 0 < R)
    (hfit : s.playbackPos + R ≤ s.audioBuffer.length) :
    PlaybackCallback s channels frameCount =
      some ({ s with playbackPos := s.playbackPos + R },
        (s.audioBuffer.drop s.playbackPos).take R) := by
  have hp : s.playbackPos ≤ s.audioBuffer.length := by omega
  have hc : s.playbackPos < s.audioBuffer.length ∧
      s.playbackPos + R ≤ s.audioBuffer.length := ⟨by omega, hfit⟩
  have hmin : min R (s.audioBuffer.length - s.playbackPos) = R := Nat.min_eq_left (by omega)
  rw [PlaybackCallback_of_le s channels frameCount hB hp, hR, if_pos hc, hmin, Nat.sub_self,
    List.replicate_zero, List.append_nil]

/-- A period that runs past the end of the buffer copies the rest of the buffer,
fills up with zeros and puts the cursor back to 0. -/
theorem PlaybackCallback_partial (s : AudioContext) (channels frameCount R : Nat)
    (hB : s.audioBuffer.length < SIZE_MOD)
    (hR : frameCount * channels * 2 % SIZE_MOD = R)
    (hp : s.playbackPos ≤ s.audioBuffer.length)
    (hover : s.audioBuffer.length < s.playbackPos + R) :
    PlaybackCallback s channels frameCount =
      some ({ s with playbackPos := 0 },
        s.audioBuffer.drop s.playbackPos ++
          List.replicate (s.playbackPos + R - s.audioBuffer.length) 0) := by
  have hc : ¬ (s.playbackPos < s.audioBuffer.length ∧
      s.playbackPos + R ≤ s.audioBuffer.length) := by omega
  have hmin : min R (s.audioBuffer.length - s.playbackPos) =
      s.audioBuffer.length - s.playbackPos := Nat.min_eq_right (by omega)
  have htake : (s.audioBuffer.drop s.playbackPos).take (s.audioBuffer.length - s.playbackPos) =
      s.audioBuffer.drop s.playbackPos :=
    List.take_of_length_le (by rw [List.length_drop])
  have hn : R - (s.audioBuffer.length - s.playbackPos) =
      s.playbackPos + R - s.audioBuffer.length := by omega
  rw [PlaybackCallback_of_le s channels frameCount hB hp, hR, if_neg hc, hmin, htake, hn]

/-- While `n` periods fit before the end of the buffer, `n` invocations output
the next `n * R` buffer bytes in order and advance the cursor by `n * R`. -/
theorem playbackPeriods_full (channels frameCount R : Nat)
    (hR : frameCount * channels * 2 % SIZE_MOD = R) (hpos : 0 < R) :
    ∀ (n : Nat) (s : AudioContext), s.audioBuffer.length < SIZE_MOD →
      s.playbackPos + n * R ≤ s.audioBuffer.length →
      playbackPeriods channels frameCount n s =
        some ({ s with playbackPos := s.playbackPos + n * R },
          (s.audioBuffer.drop s.playbackPos).take (n * R)) := by
  intro n
  induction n with
  | zero => intro s _ _; simp [playbackPeriods]
  | succ n ih =>
    intro s hB hfit
    have hmul : (n + 1) * R = R + n * R := by rw [Nat.add_mul, Nat.one_mul, Nat.add_comm]
    have h1 : s.playbackPos + R ≤ s.audioBuffer.length := by omega
    have hstep := PlaybackCallback_full s channels frameCount R hB hR hpos h1
    have hrest := ih { s with playbackPos := s.playbackPos + R } hB
      (by show s.playbackPos + R + n * R ≤ s.audioBuffer.length; omega)
    simp only [playbackPeriods, hstep, hrest, hmul, List.take_add, List.drop_drop,
      Nat.add_assoc]

/-- When `n` periods fit before the end of the buffer and one more runs past
it, `n + 1` invocations output the rest of the buffer in order, then zeros. -/
theorem playbackPeriods_to_end (channels frameCount R : Nat)
    (hR : frameCount * channels * 2 % SIZE_MOD = R) (hpos : 0 < R) :
    ∀ (n : Nat) (s : AudioContext), s.audioBuffer.length < SIZE_MOD →
      s.playbackPos + n * R ≤ s.audioBuffer.length →
      s.audioBuffer.length < s.playbackPos + (n + 1) * R →
      playbackPeriods channels frameCount (n + 1) s =
        some ({ s with playbackPos := 0 },
          s.audioBuffer.drop s.playbackPos ++
            List.replicate (s.playbackPos + (n + 1) * R - s.audioBuffer.length) 0) := by
  intro n
  induction n with
  | zero =>
    intro s hB hfit hover
    have hover1 : s.audioBuffer.length < s.playbackPos + R := by simpa using hover
    have hstep := PlaybackCallback_partial s channels frameCount R hB hR (by omega) hover1
    simp [playbackPeriods, hstep]
  | succ n ih =>
    intro s hB hfit hover
    have hmul : (n + 1) * R = R + n * R := by rw [Nat.add_mul, Nat.one_mul, Nat.add_comm]
    have hmul2 : (n + 1 + 1) * R = R + (n + 1) * R := by
      rw [Nat.add_mul (n + 1) 1 R, Nat.one_mul, Nat.add_comm]
    have h1 : s.playbackPos + R ≤ s.audioBuffer.length := by omega
    have hstep := PlaybackCallback_full s channels frameCount R hB hR hpos h1
    have hrest := ih { s with playbackPos := s.playbackPos + R } hB
      (by show s.playbackPos + R + n * R ≤ s.audioBuffer.length; omega)
      (by show s.audioBuffer.length < s.playbackPos + R + (n + 1) * R; omega)
    have hsplit : s.audioBuffer.drop s.playbackPos =
        (s.audioBuffer.drop s.playbackPos).take R ++ s.audioBuffer.drop (s.playbackPos + R) := by
      rw [← List.drop_drop, List.take_append_drop]
    have hpad : s.playbackPos + R + (n + 1) * R - s.audioBuffer.length =
        s.playbackPos + (n + 1 + 1) * R - s.audioBuffer.length := by omega
    rw [playbackPeriods, hstep]
    simp only [hrest]
    rw [hpad, ← List.append_assoc, ← hsplit]

/-- C10. One pass plays the buffer exactly once, in order: for a non-empty
buffer of `B` bytes and a period of `R > 0` bytes, starting from cursor 0, the
first `ceil(B / R)` `PlaybackCallback` invocations (at least one) all return,
and their outputs concatenated are the buffer followed by
`ceil(B / R) * R - B` zero bytes. -/
theorem one_pass_plays_buffer_once (s : AudioContext) (channels frameCount R : Nat)
    (hB : s.audioBuffer.length < SIZE_MOD)
    (hne : s.audioBuffer ≠ [])
    (hR : frameCount * channels * 2 % SIZE_MOD = R) (hpos : 0 < R)
    (hcur : s.playbackPos = 0) :
    ∃ s1, 0 < (s.audioBuffer.length + R - 1) / R ∧ playbackPeriods channels frameCount ((s.audioBuffer.length + R - 1) / R) s =
      some (s1, s.audioBuffer ++
        List.replicate ((s.audioBuffer.length + R - 1) / R * R - s.audioBuffer.length) 0) := by
  have hdm := Nat.div_add_mod s.audioBuffer.length R
  have hml := Nat.mod_lt s.audioBuffer.length hpos
  have hlen : 0 < s.audioBuffer.length := List.length_pos.mpr hne
  have hinv : 0 < (s.audioBuffer.length + R - 1) / R := Nat.div_pos (by omega) hpos
  rw [Nat.mul_comm] at hdm
  by_cases hr : s.audioBuffer.length % R = 0
  · have hBq : s.audioBuffer.length / R * R = s.audioBuffer.length := by omega
    have hceil : (s.audioBuffer.length + R - 1) / R = s.audioBuffer.length / R := by
      have h1 : s.audioBuffer.length + R - 1 = (R - 1) + R * (s.audioBuffer.length / R) := by
        rw [Nat.mul_comm R]; omega
      rw [h1, Nat.add_mul_div_left _ _ hpos, Nat.div_eq_of_lt (by omega), Nat.zero_add]
    have hrun := playbackPeriods_full channels frameCount R hR hpos
      (s.audioBuffer.length / R) s hB (by rw [hcur, hBq]; omega)
    refine ⟨{ s with playbackPos := s.playbackPos + s.audioBuffer.length / R * R }, hinv, ?_⟩
    rw [hceil, hrun, hBq, Nat.sub_self, List.replicate_zero, List.append_nil, hcur,
      List.drop_zero, List.take_of_length_le (Nat.le_refl _)]
  · have hceil : (s.audioBuffer.length + R - 1) / R = s.audioBuffer.length / R + 1 := by
      have h1 : s.audioBuffer.length + R - 1 =
          (s.audioBuffer.length % R - 1) + R * (s.audioBuffer.length / R + 1) := by
        rw [Nat.mul_add, Nat.mul_one, Nat.mul_comm R]; omega
      rw [h1, Nat.add_mul_div_left _ _ hpos, Nat.div_eq_of_lt (by omega), Nat.zero_add]
    have hq1 : (s.audioBuffer.length / R + 1) * R = s.audioBuffer.length / R * R + R := by
      rw [Nat.add_mul, Nat.one_mul]
    have hrun := playbackPeriods_to_end channels frameCount R hR hpos
      (s.audioBuffer.length / R) s hB (by rw [hcur]; omega) (by rw [hcur, hq1]; omega)
    refine ⟨{ s with playbackPos := 0 }, hinv, ?_⟩
    rw [hceil, hrun, hcur, Nat.zero_add, List.drop_zero]

/-- A run of C10: a three-byte buffer played in periods of two bytes takes two
invocations and ends with one zero byte. -/
theorem one_pass_plays_buffer_once_witness :
    (exampleState 0 [1, 2, 3]).audioBuffer ≠ [] ∧ 1 * 1 * 2 % SIZE_MOD = 2 ∧
    ∃ s1, 0 < ((exampleState 0 [1, 2, 3]).audioBuffer.length + 2 - 1) / 2 ∧
      playbackPeriods 1 1 (((exampleState 0 [1, 2, 3]).audioBuffer.length + 2 - 1) / 2)
        (exampleState 0 [1, 2, 3]) =
      some (s1, (exampleState 0 [1, 2, 3]).audioBuffer ++
        List.replicate (((exampleState 0 [1, 2, 3]).audioBuffer.length + 2 - 1) / 2 * 2 -
          (exampleState 0 [1, 2, 3]).audioBuffer.length) 0) :=
  ⟨by decide, by decide,
    one_pass_plays_buffer_once (exampleState 0 [1, 2, 3]) 1 1 2
      (by decide) (by decide) (by decide) (by decide) (by decide)⟩

/-! ## Cursor and buffer length -/

/-- The cursor is left as it is by `StartRecording`, on every path. -/
theorem StartRecording_playbackPos (s : AudioContext) (deviceName : String)
    (native : NativeAnswers) :
    (StartRecording s deviceName native).1.playbackPos = s.playbackPos := by
  unfold StartRecording
  by_cases h1 : s.captureInitialized = true <;>
    by_cases h2 : native.deviceInitResult = MA_SUCCESS <;>
    by_cases h3 : native.deviceStartResult = MA_SUCCESS <;>
    cases h4 : GetDeviceFromName native deviceName true <;>
    simp [h1, h2, h3]

/-- The cursor after `StartPlayback` is 0 and the buffer is kept, on every
path. -/
theorem StartPlayback_cursor (s : AudioContext) (deviceName : String) (native : NativeAnswers) :
    (StartPlayback s deviceName native).1.playbackPos = 0 ∧
    (StartPlayback s deviceName native).1.audioBuffer = s.audioBuffer := by
  unfold StartPlayback
  by_cases h1 : s.playbackInitialized = true <;>
    by_cases h2 : native.deviceInitResult = MA_SUCCESS <;>
    by_cases h3 : native.deviceStartResult = MA_SUCCESS <;>
    cases h4 : GetDeviceFromName native deviceName false <;>
    simp [h1, h2, h3]

/-- Every operation other than `StartRecording` keeps the cursor inside the
buffer. -/
theorem applyOp_keeps_cursor (s s1 : AudioContext) (op : EngineOp)
    (hB : s.audioBuffer.length < SIZE_MOD)
    (hinv : s.playbackPos ≤ s.audioBuffer.length)
    (hop : ∀ deviceName native, op ≠ .startRecording deviceName native)
    (hs1 : applyOp s op = some s1) :
    s1.playbackPos ≤ s1.audioBuffer.length := by
  cases op with
  | startRecording deviceName native => exact absurd rfl (hop deviceName native)
  | stopRecording =>
    simp only [applyOp, Option.some.injEq] at hs1
    subst hs1
    exact hinv
  | startBufferPlayback buffer bufferSize native =>
    simp only [applyOp, Option.some.injEq] at hs1
    subst hs1
    rw [(StartBufferPlayback_buffer s buffer bufferSize native).1]
    exact Nat.zero_le _
  | stopBufferPlayback =>
    simp only [applyOp, Option.some.injEq] at hs1
    subst hs1
    exact Nat.zero_le _
  | startPlayback deviceName native =>
    simp only [applyOp, Option.some.injEq] at hs1
    subst hs1
    rw [(StartPlayback_cursor s deviceName native).1]
    exact Nat.zero_le _
  | stopPlayback =>
    simp only [applyOp, Option.some.injEq] at hs1
    subst hs1
    exact Nat.zero_le _
  | microphoneCallback channels pInput frameCount =>
    simp only [applyOp, MicrophoneCallback, Option.map_eq_some'] at hs1
    obtain ⟨inputData, _, hs⟩ := hs1
    subst hs
    show s.playbackPos ≤ (s.audioBuffer ++ inputData).length
    rw [List.length_append]
    omega
  | playbackCallback channels frameCount =>
    simp only [applyOp, PlaybackCallback_of_le s channels frameCount hB hinv, Option.map_some',
      Option.some.injEq] at hs1
    subst hs1
    show (if s.playbackPos < s.audioBuffer.length ∧
        s.playbackPos + frameCount * channels * 2 % SIZE_MOD ≤ s.audioBuffer.length
      then s.playbackPos + frameCount * channels * 2 % SIZE_MOD else 0) ≤ s.audioBuffer.length
    split
    · next h => exact h.2
    · exact Nat.zero_le _

/-- C11 on the code: the duplex session, run on the freshly constructed engine,
ends in a state whose cursor (2) is past the end of the shared buffer (empty)
while the playback stream is running; there the remaining-byte count of
`PlaybackCallback` wraps to `2 ^ 64 - 2` and its copy of one frame reads past
the end of the buffer. -/
theorem cursor_past_buffer_after_StartRecording :
    ∃ s, runOps AudioContext.new duplexSession = some s ∧
      s.playbackPos = 2 ∧ s.audioBuffer = [] ∧
      ¬ (s.playbackPos ≤ s.audioBuffer.length) ∧
      s.playbackDevice.started = true ∧
      (s.audioBuffer.length + SIZE_MOD - s.playbackPos) % SIZE_MOD = 18446744073709551614 ∧
      PlaybackCallback s 1 1 = none :=
  ⟨{ AudioContext.new with
      captureInitialized := true
      playbackInitialized := true
      captureDevice := { initialized := true, started := true }
      playbackDevice := { initialized := true, started := true }
      playbackPos := 2 },
    by decide, rfl, rfl, by decide, rfl, by decide, by decide⟩

end Vatis
